import Mathlib

/-
Verification of the OpenVoice frontend state-synchronization core.

The embedding below translates the Recording Session State Machine and
Backend-Sync Layer of the repository into Lean:

  * `AppState`, `Config`, `AudioDevice`, `Store` model the session state
    held by the `useTauri` hook (src/src/hooks/useTauri.ts): the `useState`
    cells `state`, `config`, `devices`, `preview`, `error`.
  * JavaScript strings manipulated by `.slice` / `.length` are modelled as
    `List Char`; the Tauri backend is modelled as an environment `Backend`
    recording, for each command, whether the `invoke` resolves or rejects
    (a rejection is the thrown failure caught by the surrounding
    `try`/`catch`).
  * `loadConfigT` and `saveConfigT` translate the `loadConfig` and
    `saveConfig` callbacks, additionally returning the trace of backend
    commands that were dispatched.
  * `handleEvent` translates the six listeners installed by
    `setupListeners`; `runEvents` folds a sequence of delivered events.
  * `candidateConfig` and `handleSave` translate the `handleSave` function
    of the Settings view (candidate normalization, call into `saveConfig`,
    conditional `emit('config-updated')`).
  * `Subscription`, `teardown`, `deliver` model the effect cleanup
    `unlisteners.forEach(fn => fn())` together with the subscription
    contract of the event registry leaf (a handler fires only while its
    disposer has not been invoked).
-/

namespace OpenVoice

/-- The closed enumeration of UI-visible application states
(src/src/hooks/useTauri.ts, `AppState`). -/
inductive AppState where
  | idle
  | recording
  | processing
  | success
  | error
deriving DecidableEq, Repr

/-- The persisted configuration cached by the frontend
(`Config` in the types module). -/
structure Config where
  api_key : Option String
  audio_device : Option String
  model : Option String
deriving DecidableEq, Repr

/-- One enumerable audio input device (`AudioDevice` in the types module). -/
structure AudioDevice where
  name : String
  is_default : Bool
deriving DecidableEq, Repr

/-- The Session State Store: the five `useState` cells of `useTauri`.
JavaScript strings are modelled as `List Char`. -/
structure Store where
  state : AppState
  config : Option Config
  devices : List AudioDevice
  preview : List Char
  error : List Char
deriving DecidableEq, Repr

/-- The initial store: `useState` defaults of `useTauri`
(state `idle`, no config, no devices, empty preview and error). -/
def initialStore : Store :=
  { state := AppState.idle, config := none, devices := [],
    preview := [], error := [] }

/-- The backend environment: for each Tauri command, whether `invoke`
resolves or rejects, and with what value.  `load_config` and
`get_audio_devices` either resolve with a value or reject with a message;
the write commands are modelled by a success flag depending on their
argument. -/
structure Backend where
  load_config : Except String Config
  save_config_ok : Config → Bool
  set_audio_device_ok : Option String → Bool
  get_audio_devices : Except String (List AudioDevice)

/-- A backend command dispatched during one controller procedure. -/
inductive Call where
  | loadConfigCmd
  | saveConfigCmd (config : Config)
  | setAudioDeviceCmd (deviceName : Option String)
  | getAudioDevicesCmd
deriving DecidableEq, Repr

/-- JavaScript truthiness of a `string | null` value, as used by the
guard `if (cfg.audio_device)`: `null` and the empty string are falsy,
every other string is truthy. -/
def jsTruthyStr : Option String → Bool
  | none => false
  | some n => decide (n ≠ "")

/-- Translation of the `loadConfig` callback of `useTauri`:

  try {
    const cfg = await invoke('load_config')
    setConfig(cfg)
    if (cfg.audio_device) await invoke('set_audio_device', ...)
  } catch (e) { console.error(...) }

Returns the resulting store together with the trace of dispatched
commands.  The guard `if (cfg.audio_device)` is JS truthiness, so an
empty-string device name (falsy) skips the dispatch just as `null` does.
`setConfig(cfg)` runs before the `set_audio_device` dispatch, so a
rejection of the secondary call jumps to the catch (which only logs)
with the config replacement already applied: the resulting store does not
depend on `set_audio_device_ok` at all. -/
def loadConfigT (B : Backend) (s : Store) : Store × List Call :=
  match B.load_config with
  | Except.error _ => (s, [Call.loadConfigCmd])
  | Except.ok cfg =>
    if jsTruthyStr cfg.audio_device then
      ({ s with config := some cfg },
       [Call.loadConfigCmd, Call.setAudioDeviceCmd cfg.audio_device])
    else ({ s with config := some cfg }, [Call.loadConfigCmd])

/-- Translation of the `loadDevices` callback of `useTauri`. -/
def loadDevicesT (B : Backend) (s : Store) : Store × List Call :=
  match B.get_audio_devices with
  | Except.error _ => (s, [Call.getAudioDevicesCmd])
  | Except.ok devs => ({ s with devices := devs }, [Call.getAudioDevicesCmd])

/-- Result of one run of the `saveConfig` callback. -/
structure SaveResult where
  store : Store
  ok : Bool
  calls : List Call
deriving DecidableEq, Repr

/-- Translation of the `saveConfig` callback of `useTauri`:

  try {
    await invoke('save_config', ...)
    await invoke('set_audio_device', ...)
    setConfig(newConfig)
    return true
  } catch (e) { console.error(...); return false }

A rejection of either `invoke` jumps to the catch before `setConfig`
runs, so the cached config is replaced (and `true` returned) only when
both commands resolve. -/
def saveConfigT (B : Backend) (s : Store) (newConfig : Config) : SaveResult :=
  if B.save_config_ok newConfig then
    if B.set_audio_device_ok newConfig.audio_device then
      { store := { s with config := some newConfig }, ok := true,
        calls := [Call.saveConfigCmd newConfig,
                  Call.setAudioDeviceCmd newConfig.audio_device] }
    else
      { store := s, ok := false,
        calls := [Call.saveConfigCmd newConfig,
                  Call.setAudioDeviceCmd newConfig.audio_device] }
  else
    { store := s, ok := false, calls := [Call.saveConfigCmd newConfig] }

/-- The six backend-pushed events of the transition table, with their
string payloads modelled as `List Char`. -/
inductive Event where
  | recordingStarted
  | recordingStopped
  | transcriptionStarted
  | transcriptionComplete (payload : List Char)
  | transcriptionError (payload : List Char)
  | configUpdated
deriving DecidableEq, Repr

/-- The ellipsis marker `'...'` appended by the transcription-complete
handler. -/
def ellipsisMarker : List Char := ['.', '.', '.']

/-- The preview truncation of the transcription-complete handler:
`text.length > 50 ? text.slice(0, 50) + '...' : text`. -/
def truncPreview (text : List Char) : List Char :=
  if text.length > 50 then text.take 50 ++ ellipsisMarker else text

/-- Translation of the six listeners installed by `setupListeners` in
`useTauri`: the effect of one delivered backend event on the store.  The
`config-updated` listener re-runs `loadConfig`. -/
def handleEvent (B : Backend) (s : Store) : Event → Store
  | Event.recordingStarted =>
      { s with state := AppState.recording, preview := [], error := [] }
  | Event.recordingStopped => { s with state := AppState.processing }
  | Event.transcriptionStarted => { s with state := AppState.processing }
  | Event.transcriptionComplete text =>
      { s with state := AppState.success, preview := truncPreview text }
  | Event.transcriptionError msg =>
      { s with state := AppState.error, error := msg.take 40 }
  | Event.configUpdated => (loadConfigT B s).1

/-- Folding a sequence of delivered backend events over the store. -/
def runEvents (B : Backend) (s : Store) : List Event → Store
  | [] => s
  | e :: es => runEvents B (handleEvent B s e) es

/-- Model of JavaScript `String.prototype.trim`: strip whitespace from
both ends of the string. -/
def jsTrim (s : String) : String :=
  String.mk
    (((s.data.dropWhile Char.isWhitespace).reverse.dropWhile
        Char.isWhitespace).reverse)

/-- Translation of the candidate construction in `handleSave` of the
Settings view:

  const newConfig = {
    api_key: apiKey.trim() || null,
    audio_device: audioDevice || null,
    model: null,
  }

The JavaScript `|| null` maps the empty string (the only falsy string)
to `null`. -/
def candidateConfig (apiKey audioDevice : String) : Config :=
  { api_key := if jsTrim apiKey = "" then none else some (jsTrim apiKey),
    audio_device := if audioDevice = "" then none else some audioDevice,
    model := none }

/-- Outcome of one run of the Settings `handleSave`: the resulting store,
the events emitted by this layer, and which status message was shown
(`saved = true` for the success status). -/
structure SaveOutcome where
  store : Store
  emitted : List Event
  saved : Bool
deriving DecidableEq, Repr

/-- Translation of `handleSave` of the Settings view: build the candidate,
run `saveConfig`, and on success `emit('config-updated')` and show the
success status, otherwise show the failure status. -/
def handleSave (B : Backend) (s : Store) (apiKey audioDevice : String) :
    SaveOutcome :=
  let c := candidateConfig apiKey audioDevice
  let r := saveConfigT B s c
  if r.ok then
    { store := r.store, emitted := [Event.configUpdated], saved := true }
  else
    { store := r.store, emitted := [], saved := false }

/-- The event channel a subscription listens on. -/
inductive EventName where
  | recordingStarted
  | recordingStopped
  | transcriptionStarted
  | transcriptionComplete
  | transcriptionError
  | configUpdated
deriving DecidableEq, Repr

/-- The channel of a delivered event. -/
def eventNameOf : Event → EventName
  | Event.recordingStarted => EventName.recordingStarted
  | Event.recordingStopped => EventName.recordingStopped
  | Event.transcriptionStarted => EventName.transcriptionStarted
  | Event.transcriptionComplete _ => EventName.transcriptionComplete
  | Event.transcriptionError _ => EventName.transcriptionError
  | Event.configUpdated => EventName.configUpdated

/-- One subscription held in the `unlisteners` array: the channel it
listens on, and how many times its disposer has been invoked. -/
structure Subscription where
  channel : EventName
  disposeCount : Nat
deriving DecidableEq, Repr

/-- Invoking the disposer of one subscription once. -/
def disposeOnce (u : Subscription) : Subscription := { u with disposeCount := u.disposeCount + 1 }

/-- Translation of the effect cleanup of `useTauri`:
`unlisteners.forEach(fn => fn())` invokes every collected disposer once. -/
def teardown (subs : List Subscription) : List Subscription := subs.map disposeOnce

/-- The six subscriptions collected by `setupListeners` during activation,
each with its disposer not yet invoked. -/
def activationSubs : List Subscription :=
  [ { channel := EventName.recordingStarted, disposeCount := 0 },
    { channel := EventName.recordingStopped, disposeCount := 0 },
    { channel := EventName.transcriptionStarted, disposeCount := 0 },
    { channel := EventName.transcriptionComplete, disposeCount := 0 },
    { channel := EventName.transcriptionError, disposeCount := 0 },
    { channel := EventName.configUpdated, disposeCount := 0 } ]

/-- A subscription is live while its disposer has not been invoked; the
event registry contract guarantees no handler invocation after its
disposer has completed. -/
def Subscription.isLive (u : Subscription) : Bool := decide (u.disposeCount = 0)

/-- Delivery of one backend event to a controller instance holding the
given subscriptions: the instance's handler runs exactly when a live
subscription on the event's channel exists (the registry contract of the
event-subscription leaf), and mutates the store per `handleEvent`. -/
def deliver (B : Backend) (subs : List Subscription) (s : Store) (e : Event) : Store :=
  if subs.any (fun u => u.isLive && decide (u.channel = eventNameOf e)) then
    handleEvent B s e
  else s

/-- A backend environment in which every command rejects. -/
def backendDown : Backend :=
  { load_config := Except.error "backend unavailable",
    save_config_ok := fun _ => false,
    set_audio_device_ok := fun _ => false,
    get_audio_devices := Except.error "backend unavailable" }

/-- A backend environment in which every command resolves;
`load_config` resolves with a config naming the device "mic". -/
def backendUp : Backend :=
  { load_config := Except.ok
      { api_key := some "sk", audio_device := some "mic", model := none },
    save_config_ok := fun _ => true,
    set_audio_device_ok := fun _ => true,
    get_audio_devices := Except.ok [] }

/-- A backend environment in which `save_config` resolves but
`set_audio_device` rejects. -/
def backendSaveOkSetFails : Backend :=
  { load_config := Except.error "backend unavailable",
    save_config_ok := fun _ => true,
    set_audio_device_ok := fun _ => false,
    get_audio_devices := Except.error "backend unavailable" }

/-- A backend identical to `backendSaveOkSetFails` except that
`set_audio_device` resolves. -/
def backendSaveOkSetOk : Backend :=
  { backendSaveOkSetFails with set_audio_device_ok := fun _ => true }

/-- A backend whose `load_config` resolves with a config naming the device
"mic" while both write commands reject. -/
def backendLoadOkSetFails : Backend :=
  { load_config := Except.ok
      { api_key := some "sk", audio_device := some "mic", model := none },
    save_config_ok := fun _ => false,
    set_audio_device_ok := fun _ => false,
    get_audio_devices := Except.error "backend unavailable" }

/-- The config `backendLoadOkSetFails` resolves `load_config` with. -/
def cfgMic : Config :=
  { api_key := some "sk", audio_device := some "mic", model := none }

/-- The store component of `loadConfigT` never consults the outcome of
`set_audio_device`: the run either leaves the store untouched (when
`load_config` rejects) or replaces the cached config wholesale. -/
theorem loadConfigT_fst (B : Backend) (s : Store) :
    (loadConfigT B s).1 =
      (match B.load_config with
        | Except.error _ => s
        | Except.ok cfg => { s with config := some cfg }) := by
  unfold loadConfigT
  rcases B.load_config with e | cfg
  · rfl
  · cases h : jsTruthyStr cfg.audio_device <;> simp [h]

/-- A run of `loadConfigT` leaves `state`, `preview` and `error`
unchanged: the `loadConfig` callback only touches the cached config. -/
theorem loadConfigT_transients (B : Backend) (s : Store) :
    ((loadConfigT B s).1).state = s.state
    ∧ ((loadConfigT B s).1).preview = s.preview
    ∧ ((loadConfigT B s).1).error = s.error := by
  rw [loadConfigT_fst]
  rcases B.load_config with e | cfg <;> exact ⟨rfl, rfl, rfl⟩

/-- The transition table of the specification: the state an event maps to,
as a function of the prior state. -/
def specTransitionTarget (e : Event) (prior : AppState) : AppState :=
  match e with
  | Event.recordingStarted => AppState.recording
  | Event.recordingStopped => AppState.processing
  | Event.transcriptionStarted => AppState.processing
  | Event.transcriptionComplete _ => AppState.success
  | Event.transcriptionError _ => AppState.error
  | Event.configUpdated => prior

/-- C1: for every sequence of the six backend events and every next event,
the AppState after handling that event equals the transition table's
mapping for it, regardless of the prior state reached by the sequence:
recording-started yields recording, recording-stopped yields processing,
transcription-started yields processing, transcription-complete yields
success, transcription-error yields error, and config-updated leaves the
AppState unchanged. -/
theorem transition_table_total (B : Backend) (s : Store) (es : List Event)
    (e : Event) :
    (handleEvent B (runEvents B s es) e).state
      = specTransitionTarget e (runEvents B s es).state := by
  cases e with
  | recordingStarted => rfl
  | recordingStopped => rfl
  | transcriptionStarted => rfl
  | transcriptionComplete t => rfl
  | transcriptionError t => rfl
  | configUpdated =>
      exact (loadConfigT_transients B (runEvents B s es)).1

/-- C2 counterexample: with a backend whose `save_config` resolves but
whose `set_audio_device` rejects, `save_config` succeeded yet the save
procedure returns false, leaves the cached Config unchanged, and emits no
config-updated notification — contradicting the claim's success clause. -/
theorem save_success_clause_fails :
    backendSaveOkSetFails.save_config_ok (candidateConfig "k" "mic") = true
    ∧ (saveConfigT backendSaveOkSetFails initialStore
        (candidateConfig "k" "mic")).ok = false
    ∧ (saveConfigT backendSaveOkSetFails initialStore
        (candidateConfig "k" "mic")).store = initialStore
    ∧ (handleSave backendSaveOkSetFails initialStore "k" "mic").emitted = [] := by
  decide

/-- C2 amended: if `save_config` fails, the cached Config is unchanged,
`set_audio_device` is not attempted, false is returned, and no
config-updated notification is emitted; if `save_config` and the
subsequent `set_audio_device` both succeed, the cached Config is replaced
wholesale with the candidate, true is returned, and exactly one
config-updated notification is emitted; if `save_config` succeeds but
`set_audio_device` fails, the cached Config is unchanged, false is
returned, and no notification is emitted.  The procedure is a total
function (never throws past its boundary). -/
theorem save_procedure_cases (B : Backend) (s : Store) (k d : String) :
    saveConfigT B s (candidateConfig k d) =
      (if B.save_config_ok (candidateConfig k d) then
        if B.set_audio_device_ok (candidateConfig k d).audio_device then
          { store := { s with config := some (candidateConfig k d) },
            ok := true,
            calls := [Call.saveConfigCmd (candidateConfig k d),
                      Call.setAudioDeviceCmd
                        (candidateConfig k d).audio_device] }
        else
          { store := s, ok := false,
            calls := [Call.saveConfigCmd (candidateConfig k d),
                      Call.setAudioDeviceCmd
                        (candidateConfig k d).audio_device] }
      else
        { store := s, ok := false,
          calls := [Call.saveConfigCmd (candidateConfig k d)] })
    ∧ (handleSave B s k d).emitted =
        (if (saveConfigT B s (candidateConfig k d)).ok then
          [Event.configUpdated] else [])
    ∧ (handleSave B s k d).store = (saveConfigT B s (candidateConfig k d)).store := by
  refine ⟨rfl, ?_, ?_⟩ <;>
    · unfold handleSave
      cases h : (saveConfigT B s (candidateConfig k d)).ok <;> simp [h]

/-- C3 counterexample: two backends that differ only in whether
`set_audio_device` resolves give different caller-visible outcomes of the
save procedure (false versus true), so a `set_audio_device` failure is not
"logged only" on the save path. -/
theorem set_failure_changes_save_outcome :
    (saveConfigT backendSaveOkSetFails initialStore
        (candidateConfig "k" "mic")).ok = false
    ∧ (saveConfigT backendSaveOkSetOk initialStore
        (candidateConfig "k" "mic")).ok = true
    ∧ backendSaveOkSetOk.load_config = backendSaveOkSetFails.load_config
    ∧ backendSaveOkSetOk.save_config_ok (candidateConfig "k" "mic")
        = backendSaveOkSetFails.save_config_ok (candidateConfig "k" "mic") := by
  exact ⟨by decide, by decide, rfl, rfl⟩

/-- C3 amended: a `set_audio_device` failure never lets an exception cross
into the View Layer (both procedures are total), and on the
configuration-load path it causes no state change — the resulting store
never consults its outcome.  On the save path, however, a
`set_audio_device` failure after a successful `save_config` aborts the
cache update and makes the procedure return false, so the caller-visible
outcome is affected there. -/
theorem set_failure_logged_only_on_load_path (B : Backend) (s : Store)
    (c : Config) :
    (loadConfigT B s).1 =
      (match B.load_config with
        | Except.error _ => s
        | Except.ok cfg => { s with config := some cfg })
    ∧ (B.save_config_ok c = true →
        B.set_audio_device_ok c.audio_device = false →
        saveConfigT B s c =
          { store := s, ok := false,
            calls := [Call.saveConfigCmd c,
                      Call.setAudioDeviceCmd c.audio_device] }) := by
  refine ⟨loadConfigT_fst B s, fun h1 h2 => ?_⟩
  simp [saveConfigT, h1, h2]

/-- C3 witness: the save-path consequence at a concrete backend in which
`save_config` resolves and `set_audio_device` rejects. -/
theorem set_failure_logged_only_on_load_path_witness :
    backendSaveOkSetFails.save_config_ok cfgMic = true
    ∧ backendSaveOkSetFails.set_audio_device_ok cfgMic.audio_device = false
    ∧ saveConfigT backendSaveOkSetFails initialStore cfgMic =
        { store := initialStore, ok := false,
          calls := [Call.saveConfigCmd cfgMic,
                    Call.setAudioDeviceCmd cfgMic.audio_device] } :=
  ⟨rfl, rfl,
    (set_failure_logged_only_on_load_path backendSaveOkSetFails initialStore
      cfgMic).2 rfl rfl⟩

/-- A config naming the empty string as its audio device: non-null but
falsy under the JS truthiness guard of the load procedure. -/
def cfgEmptyDevice : Config :=
  { api_key := some "sk", audio_device := some "", model := none }

/-- A backend whose `load_config` resolves with `cfgEmptyDevice`. -/
def backendLoadOkEmptyDevice : Backend :=
  { load_config := Except.ok cfgEmptyDevice,
    save_config_ok := fun _ => false,
    set_audio_device_ok := fun _ => true,
    get_audio_devices := Except.error "backend unavailable" }

/-- C4 counterexample: a loaded config naming the non-null audio device
"" (the empty string) dispatches no `set_audio_device` call — the guard
`if (cfg.audio_device)` is JS truthiness, under which the empty string is
falsy — although the config replacement still happens. -/
theorem load_dispatch_clause_fails :
    backendLoadOkEmptyDevice.load_config = Except.ok cfgEmptyDevice
    ∧ cfgEmptyDevice.audio_device = some ""
    ∧ (loadConfigT backendLoadOkEmptyDevice initialStore).2
        = [Call.loadConfigCmd]
    ∧ (loadConfigT backendLoadOkEmptyDevice initialStore).1
        = { initialStore with config := some cfgEmptyDevice } :=
  ⟨rfl, rfl, by decide, by decide⟩

/-- C4 amended: on `load_config` success the cached Config is replaced
wholesale (for every backend, hence regardless of whether the secondary
`set_audio_device` call fails — no rollback); when the loaded config
names a truthy audio device (non-null and non-empty), `set_audio_device`
is dispatched with that name, while a null or empty-string device
triggers no dispatch; on `load_config` failure the store is left
untouched. -/
theorem load_procedure_correct (B : Backend) (s : Store) :
    (∀ cfg, B.load_config = Except.ok cfg →
      ((loadConfigT B s).1 = { s with config := some cfg }
        ∧ (jsTruthyStr cfg.audio_device = false →
            (loadConfigT B s).2 = [Call.loadConfigCmd])
        ∧ (∀ n, cfg.audio_device = some n → n ≠ "" →
            (loadConfigT B s).2
              = [Call.loadConfigCmd, Call.setAudioDeviceCmd (some n)])))
    ∧ (∀ msg, B.load_config = Except.error msg →
        loadConfigT B s = (s, [Call.loadConfigCmd])) := by
  constructor
  · intro cfg h
    refine ⟨?_, ?_, ?_⟩
    · rw [loadConfigT_fst, h]
    · intro hd
      simp [loadConfigT, h, hd]
    · intro n hd hne
      simp [loadConfigT, h, hd, jsTruthyStr, hne]
  · intro msg h
    simp [loadConfigT, h]

/-- C4 witness: a concrete backend whose `load_config` resolves with a
config naming the truthy device "mic" while `set_audio_device` rejects —
the cached config is still replaced and the secondary call was
dispatched. -/
theorem load_procedure_correct_witness :
    backendLoadOkSetFails.load_config = Except.ok cfgMic
    ∧ (loadConfigT backendLoadOkSetFails initialStore).1
        = { initialStore with config := some cfgMic }
    ∧ (loadConfigT backendLoadOkSetFails initialStore).2
        = [Call.loadConfigCmd, Call.setAudioDeviceCmd (some "mic")] :=
  ⟨rfl,
    ((load_procedure_correct backendLoadOkSetFails initialStore).1 cfgMic
      rfl).1,
    ((load_procedure_correct backendLoadOkSetFails initialStore).1 cfgMic
      rfl).2.2 "mic" rfl (by decide)⟩

/-- C5: after teardown of a controller instance, every disposer collected
during activation has been invoked exactly once; no handler of that
instance fires on a subsequently delivered backend event (delivery leaves
the store unchanged); and teardown of an empty subscription list is a
no-op rather than an error. -/
theorem teardown_complete (B : Backend) (s : Store) (e : Event) :
    (teardown activationSubs).map Subscription.disposeCount
      = [1, 1, 1, 1, 1, 1]
    ∧ deliver B (teardown activationSubs) s e = s
    ∧ teardown [] = ([] : List Subscription) := by
  refine ⟨rfl, ?_, rfl⟩
  simp [deliver, teardown, activationSubs, disposeOnce, Subscription.isLive]

/-- C6: the transcription-complete handler sets the preview to the payload
unmodified when its length is at most 50, and to the first 50 characters
followed by the ellipsis marker when its length exceeds 50. -/
theorem preview_truncation (B : Backend) (s : Store) (text : List Char) :
    (text.length ≤ 50 →
      (handleEvent B s (Event.transcriptionComplete text)).preview = text)
    ∧ (50 < text.length →
      (handleEvent B s (Event.transcriptionComplete text)).preview
        = text.take 50 ++ ellipsisMarker) := by
  constructor
  · intro h
    have hn : ¬ text.length > 50 := by omega
    simp [handleEvent, truncPreview, hn]
  · intro h
    simp [handleEvent, truncPreview, h]

/-- C6 witness: the boundary payload lengths 49, 50 and 51. -/
theorem preview_truncation_witness :
    ((List.replicate 49 'a').length ≤ 50
      ∧ (handleEvent backendDown initialStore
          (Event.transcriptionComplete (List.replicate 49 'a'))).preview
          = List.replicate 49 'a')
    ∧ ((List.replicate 50 'a').length ≤ 50
      ∧ (handleEvent backendDown initialStore
          (Event.transcriptionComplete (List.replicate 50 'a'))).preview
          = List.replicate 50 'a')
    ∧ (50 < (List.replicate 51 'a').length
      ∧ (handleEvent backendDown initialStore
          (Event.transcriptionComplete (List.replicate 51 'a'))).preview
          = (List.replicate 51 'a').take 50 ++ ellipsisMarker) :=
  ⟨⟨by decide,
    (preview_truncation backendDown initialStore (List.replicate 49 'a')).1
      (by decide)⟩,
   ⟨by decide,
    (preview_truncation backendDown initialStore (List.replicate 50 'a')).1
      (by decide)⟩,
   ⟨by decide,
    (preview_truncation backendDown initialStore (List.replicate 51 'a')).2
      (by decide)⟩⟩

/-- C7: the transcription-error handler sets the error field to the
payload unmodified when its length is at most 40, and to the first 40
characters when its length exceeds 40. -/
theorem error_truncation (B : Backend) (s : Store) (msg : List Char) :
    (msg.length ≤ 40 →
      (handleEvent B s (Event.transcriptionError msg)).error = msg)
    ∧ (40 < msg.length →
      (handleEvent B s (Event.transcriptionError msg)).error
        = msg.take 40) := by
  constructor
  · intro h
    simp [handleEvent, List.take_of_length_le h]
  · intro h
    simp [handleEvent]

/-- C7 witness: the boundary payload lengths 39, 40 and 41. -/
theorem error_truncation_witness :
    ((List.replicate 39 'e').length ≤ 40
      ∧ (handleEvent backendDown initialStore
          (Event.transcriptionError (List.replicate 39 'e'))).error
          = List.replicate 39 'e')
    ∧ ((List.replicate 40 'e').length ≤ 40
      ∧ (handleEvent backendDown initialStore
          (Event.transcriptionError (List.replicate 40 'e'))).error
          = List.replicate 40 'e')
    ∧ (40 < (List.replicate 41 'e').length
      ∧ (handleEvent backendDown initialStore
          (Event.transcriptionError (List.replicate 41 'e'))).error
          = (List.replicate 41 'e').take 40) :=
  ⟨⟨by decide,
    (error_truncation backendDown initialStore (List.replicate 39 'e')).1
      (by decide)⟩,
   ⟨by decide,
    (error_truncation backendDown initialStore (List.replicate 40 'e')).1
      (by decide)⟩,
   ⟨by decide,
    (error_truncation backendDown initialStore (List.replicate 41 'e')).2
      (by decide)⟩⟩

/-- C8: handling a recording-started event sets both the preview and the
error field to the empty string, for every prior store. -/
theorem recording_started_clears (B : Backend) (s : Store) :
    (handleEvent B s Event.recordingStarted).preview = []
    ∧ (handleEvent B s Event.recordingStarted).error = [] :=
  ⟨rfl, rfl⟩

/-- C9 counterexample: from the initial store, delivering
transcription-error "x" and then transcription-complete "y" reaches a
state in which the preview and the error field are both non-empty — the
at-most-one-populated invariant fails on the code. -/
theorem preview_error_both_populated :
    (runEvents backendDown initialStore
      [Event.transcriptionError ['x'],
       Event.transcriptionComplete ['y']]).preview ≠ []
    ∧ (runEvents backendDown initialStore
      [Event.transcriptionError ['x'],
       Event.transcriptionComplete ['y']]).error ≠ [] := by
  decide

/-- C9 amended: every single event transition either clears both transient
fields (recording-started) or leaves at least one of them unchanged — a
transition populating one of the two fields leaves the other unchanged
rather than empty, so both fields can be simultaneously non-empty in a
reachable state. -/
theorem transition_touches_at_most_one_transient (B : Backend) (s : Store)
    (e : Event) :
    ((handleEvent B s e).preview = [] ∧ (handleEvent B s e).error = [])
    ∨ (handleEvent B s e).preview = s.preview
    ∨ (handleEvent B s e).error = s.error := by
  cases e with
  | recordingStarted => exact Or.inl ⟨rfl, rfl⟩
  | recordingStopped => exact Or.inr (Or.inl rfl)
  | transcriptionStarted => exact Or.inr (Or.inl rfl)
  | transcriptionComplete t => exact Or.inr (Or.inr rfl)
  | transcriptionError t => exact Or.inr (Or.inl rfl)
  | configUpdated => exact Or.inr (Or.inl (loadConfigT_transients B s).2.1)

/-- Unfolding of `handleSave` through its let-bindings. -/
theorem handleSave_eq (B : Backend) (s : Store) (k d : String) :
    handleSave B s k d =
      (if (saveConfigT B s (candidateConfig k d)).ok then
        { store := (saveConfigT B s (candidateConfig k d)).store,
          emitted := [Event.configUpdated], saved := true }
      else
        { store := (saveConfigT B s (candidateConfig k d)).store,
          emitted := [], saved := false }) := rfl

/-- A `saveConfigT` run that reports success has replaced the cached
config with the candidate. -/
theorem saveConfigT_ok_store (B : Backend) (s : Store) (c : Config) :
    (saveConfigT B s c).ok = true →
    (saveConfigT B s c).store = { s with config := some c } := by
  unfold saveConfigT
  cases h1 : B.save_config_ok c <;>
    cases h2 : B.set_audio_device_ok c.audio_device <;> simp [h1, h2]

/-- C10: the Settings save normalizes an API key whose trim is empty to
null in the candidate Config, always sets the candidate's model field to
null, and a successful save replaces the cached Config with exactly that
candidate (hence with a null model). -/
theorem settings_save_normalization (B : Backend) (s : Store)
    (k d : String) :
    (jsTrim k = "" → (candidateConfig k d).api_key = none)
    ∧ (candidateConfig k d).model = none
    ∧ ((handleSave B s k d).saved = true →
        (handleSave B s k d).store.config = some (candidateConfig k d)) := by
  refine ⟨fun h => ?_, rfl, fun h => ?_⟩
  · simp [candidateConfig, h]
  · rw [handleSave_eq] at h ⊢
    cases hok : (saveConfigT B s (candidateConfig k d)).ok
    · simp [hok] at h
    · simp [saveConfigT_ok_store B s (candidateConfig k d) hok]

/-- C10 witness: a whitespace-only API key with a backend on which the
save succeeds. -/
theorem settings_save_normalization_witness :
    (jsTrim "  " = "" ∧ (candidateConfig "  " "mic").api_key = none)
    ∧ ((handleSave backendUp initialStore "  " "mic").saved = true
      ∧ (handleSave backendUp initialStore "  " "mic").store.config
          = some (candidateConfig "  " "mic")) :=
  ⟨⟨by decide,
    (settings_save_normalization backendUp initialStore "  " "mic").1
      (by decide)⟩,
   ⟨by decide,
    (settings_save_normalization backendUp initialStore "  " "mic").2.2
      (by decide)⟩⟩

end OpenVoice
